import Mathlib

/-!
Verification of the Xception graph-construction code
(`diagtomodel/xception/xception.py`).

The program builds a Keras computational graph.  We embed graph
construction shallowly: a tensor is a node id together with its static
shape (the unbound batch dimension is omitted, so an image tensor
`[*, H, W, C]` is represented by the shape `[H, W, C]`); building a
layer appends a `Node` record (layer kind with all its parameters, the
ids of the consumed tensors, the id and shape of the produced tensor)
to the build state.  Failures (the `ValueError` raised by
`convolutional_unit`, and rank/shape errors of the underlying layer
primitives) are modelled with `Except String`; as in Python, an
exception leaves the already-constructed part of the state behind, so
the monad returns the state alongside the `Except` result.
-/

namespace Diagtomodel

/-- A static tensor shape with the unbound batch dimension omitted. -/
abbrev Shape := List Nat

/-- An immutable tensor handle: graph node id plus static shape. -/
structure Tensor where
  tid : Nat
  shape : Shape
deriving DecidableEq, Repr

/-- One Keras layer kind together with all of its parameters, as used by
the source file. -/
inductive LayerKind where
  | inputLayer (shape : Shape)
  | conv2D (filters : Nat) (kernel_size : Nat × Nat) (strides : Nat × Nat) (padding : String) (use_bias : Bool)
  | separableConv2D (filters : Nat) (kernel_size : Nat × Nat) (strides : Nat × Nat) (padding : String) (use_bias : Bool)
  | batchNormalization
  | activation (act : String)
  | maxPool2D (pool_size : Nat × Nat) (strides : Nat × Nat) (padding : String)
  | add
  | globalAveragePooling2D
  | dense (units : Nat)
deriving DecidableEq, Repr

/-- One constructed graph node: the layer applied, the ids of the tensors
it consumes, and the id and shape of the tensor it produces. -/
structure Node where
  kind : LayerKind
  node_inputs : List Nat
  node_output : Nat
  out_shape : Shape
deriving DecidableEq, Repr

/-- Graph-construction state: the next fresh tensor id and the nodes
constructed so far, in construction order. -/
structure BuildState where
  nextId : Nat
  nodes : List Node
deriving DecidableEq, Repr

/-- The graph-building monad: state threading plus Python-style
exceptions (an error keeps the state built so far). -/
def M (α : Type) : Type := BuildState → Except String α × BuildState

def mPure {α : Type} (a : α) : M α := fun s => (.ok a, s)

def mBind {α β : Type} (m : M α) (f : α → M β) : M β := fun s =>
  match m s with
  | (.ok a, s₂) => f a s₂
  | (.error e, s₂) => (.error e, s₂)

instance instMonadM : Monad M where
  pure := mPure
  bind := mBind

/-- Raising an exception: no result, state kept as is. -/
def failM {α : Type} (msg : String) : M α := fun s => (.error msg, s)

/-- Record one new node and return the tensor it produces. -/
def applyLayer (kind : LayerKind) (ins : List Nat) (outShape : Shape) : M Tensor :=
  fun s => (.ok ⟨s.nextId, outShape⟩,
            ⟨s.nextId + 1, s.nodes ++ [⟨kind, ins, s.nextId, outShape⟩]⟩)

/-- Output size of one spatial dimension under "same" padding:
`ceil(d / stride)`. -/
def sameOut (d stride : Nat) : Nat := (d + stride - 1) / stride

/-- Keras `Input(shape=...)`: a placeholder tensor of the given shape. -/
def Input (shape : Shape) : M Tensor :=
  applyLayer (.inputLayer shape) [] shape

/-- Keras `Activation(act)(x)`: shape preserving. -/
def Activation (act : String) (x : Tensor) : M Tensor :=
  applyLayer (.activation act) [x.tid] x.shape

/-- Keras `Conv2D(filters, kernel_size, strides, padding="same",
use_bias=False)(x)`: needs a `[H, W, C]` input (rank 4 with batch);
"same" padding gives spatial size `ceil(d / stride)` and `filters`
output channels. -/
def Conv2D (filters : Nat) (kernel_size strides : Nat × Nat)
    (padding : String) (use_bias : Bool) (x : Tensor) : M Tensor :=
  match x.shape with
  | [h, w, _] =>
    if padding = "same" then
      applyLayer (.conv2D filters kernel_size strides padding use_bias) [x.tid]
        [sameOut h strides.1, sameOut w strides.2, filters]
    else failM ("Conv2D: unmodelled padding " ++ padding)
  | _ => failM ("Conv2D: input must be of rank 4")

/-- Keras `SeparableConv2D(...)`: same shape behaviour as `Conv2D`. -/
def SeparableConv2D (filters : Nat) (kernel_size strides : Nat × Nat)
    (padding : String) (use_bias : Bool) (x : Tensor) : M Tensor :=
  match x.shape with
  | [h, w, _] =>
    if padding = "same" then
      applyLayer (.separableConv2D filters kernel_size strides padding use_bias) [x.tid]
        [sameOut h strides.1, sameOut w strides.2, filters]
    else failM ("SeparableConv2D: unmodelled padding " ++ padding)
  | _ => failM ("SeparableConv2D: input must be of rank 4")

/-- Keras `BatchNormalization()(x)`: shape preserving. -/
def BatchNormalization (x : Tensor) : M Tensor :=
  applyLayer .batchNormalization [x.tid] x.shape

/-- Keras `MaxPool2D(pool_size, strides, padding="same")(x)`. -/
def MaxPool2D (pool_size strides : Nat × Nat) (padding : String) (x : Tensor) : M Tensor :=
  match x.shape with
  | [h, w, c] =>
    if padding = "same" then
      applyLayer (.maxPool2D pool_size strides padding) [x.tid]
        [sameOut h strides.1, sameOut w strides.2, c]
    else failM ("MaxPool2D: unmodelled padding " ++ padding)
  | _ => failM ("MaxPool2D: input must be of rank 4")

/-- Keras `Add()([a, b])`: element-wise sum, the operand shapes must
agree. -/
def AddLayer (a b : Tensor) : M Tensor :=
  if a.shape = b.shape then applyLayer .add [a.tid, b.tid] a.shape
  else failM ("Add: operand shapes must match")

/-- Keras `GlobalAveragePooling2D()(x)`: `[H, W, C]` to `[C]`. -/
def GlobalAveragePooling2D (x : Tensor) : M Tensor :=
  match x.shape with
  | [_, _, c] => applyLayer .globalAveragePooling2D [x.tid] [c]
  | _ => failM ("GlobalAveragePooling2D: input must be of rank 4")

/-- Keras `Dense(units)(x)`: replaces the last dimension by `units`. -/
def Dense (units : Nat) (x : Tensor) : M Tensor :=
  match x.shape with
  | [] => failM ("Dense: input must have a last dimension")
  | l => applyLayer (.dense units) [x.tid] (l.dropLast ++ [units])

/-- `convolutional_unit` (xception.py lines 15-49), translated
statement by statement: the allow-list check on `conv_layer`, the
optional pre-activation, the `conv_outputs = conv_inputs` initialiser,
the `Conv2D` / `SeparableConv2D` dispatch (both with `padding="same"`,
`use_bias=False`), the unconditional batch normalization, and the
optional post-activation.  Python's defaults are
`strides=(1, 1)`, `pre_activation=False`, `post_activation=True`,
`conv_layer="Conv2D"`. -/
def convolutional_unit (conv_inputs : Tensor) (num_filters : Nat)
    (kernel_size : Nat × Nat) (strides : Nat × Nat := (1, 1))
    (pre_activation : Bool := false) (post_activation : Bool := true)
    (conv_layer : String := "Conv2D") : M Tensor := do
  if conv_layer ∉ (["Conv2D", "SeparableConv2D"] : List String) then
    failM ("conv_layer must be either Conv2D or SeparableConv2D. Found " ++ conv_layer)
  else do
    let conv_inputs ←
      if pre_activation then Activation ("relu") conv_inputs else pure conv_inputs
    let conv_outputs := conv_inputs
    let conv_outputs ←
      if conv_layer = "Conv2D" then
        Conv2D num_filters kernel_size strides ("same") false conv_inputs
      else if conv_layer = "SeparableConv2D" then
        SeparableConv2D num_filters kernel_size strides ("same") false conv_inputs
      else pure conv_outputs
    let conv_outputs ← BatchNormalization conv_outputs
    if post_activation then Activation ("relu") conv_outputs else pure conv_outputs

/-- `separable_convolutional_unit` (xception.py lines 52-65): delegates
to `convolutional_unit` with kernel `(3, 3)`, default strides `(1, 1)`
and `conv_layer="SeparableConv2D"`.  Python's defaults here are
`pre_activation=True`, `post_activation=False`. -/
def separable_convolutional_unit (sep_conv_inputs : Tensor) (num_filters : Nat)
    (pre_activation : Bool := true) (post_activation : Bool := false) : M Tensor :=
  convolutional_unit sep_conv_inputs num_filters (3, 3) (1, 1)
    pre_activation post_activation ("SeparableConv2D")

/-- `for x in xs: acc = f acc x` over the build monad, used for the
`for num_filters in [...]` loops of the source. -/
def loopFilters (xs : List Nat) (f : Tensor → Nat → M Tensor) (x : Tensor) : M Tensor :=
  match xs with
  | [] => pure x
  | n :: rest => do loopFilters rest f (← f x n)

/-- `for _ in range(k): acc = f acc` over the build monad, used for the
`for _ in range(...)` loops of the source. -/
def repeatM (k : Nat) (f : Tensor → M Tensor) (x : Tensor) : M Tensor :=
  match k with
  | 0 => pure x
  | n + 1 => do repeatM n f (← f x)

/-- `entry_flow` (xception.py lines 68-86). -/
def entry_flow (entry_inputs : Tensor) : M Tensor := do
  let entry_outputs ← convolutional_unit entry_inputs 32 (3, 3) (2, 2)
  let entry_outputs ← convolutional_unit entry_outputs 64 (3, 3)
  loopFilters [128, 256, 728]
    (fun entry_outputs num_filters => do
      let res ← convolutional_unit entry_outputs num_filters (1, 1) (2, 2) false false
      let entry_outputs ← repeatM 2
        (fun t => separable_convolutional_unit t num_filters) entry_outputs
      let entry_outputs ← MaxPool2D (3, 3) (2, 2) ("same") entry_outputs
      AddLayer res entry_outputs)
    entry_outputs

/-- `middle_flow` (xception.py lines 89-104). -/
def middle_flow (middle_inputs : Tensor) : M Tensor := do
  let middle_outputs := middle_inputs
  repeatM 8
    (fun middle_outputs => do
      let res := middle_outputs
      let middle_outputs ← repeatM 3
        (fun t => separable_convolutional_unit t 728) middle_outputs
      AddLayer res middle_outputs)
    middle_outputs

/-- `exit_flow` (xception.py lines 107-137). -/
def exit_flow (exit_inputs : Tensor) : M Tensor := do
  let res ← convolutional_unit exit_inputs 1024 (1, 1) (2, 2) false false
  let exit_outputs := exit_inputs
  let exit_outputs ← loopFilters [728, 1024]
    (fun t num_filters => separable_convolutional_unit t num_filters) exit_outputs
  let exit_outputs ← MaxPool2D (3, 3) (2, 2) ("same") exit_outputs
  let exit_outputs ← AddLayer res exit_outputs
  let exit_outputs ← loopFilters [1536, 2048]
    (fun t num_filters => separable_convolutional_unit t num_filters false true) exit_outputs
  let exit_outputs ← GlobalAveragePooling2D exit_outputs
  let exit_outputs ← Dense 2048 exit_outputs
  let exit_outputs ← Activation ("relu") exit_outputs
  let exit_outputs ← Dense 1000 exit_outputs
  let exit_outputs ← Activation ("softmax") exit_outputs
  pure exit_outputs

/-- The Keras `Model` object: input and output tensor handles plus a
name. -/
structure KModel where
  inputs : Tensor
  outputs : Tensor
  name : String
deriving DecidableEq, Repr

/-- The module-level build (xception.py lines 141-149): declare the
`[299, 299, 3]` input placeholder, thread it through `entry_flow`,
`middle_flow`, `exit_flow`, and package the input/output pair with the
name "Xception". -/
def build_model : M KModel := do
  let model_inputs ← Input [299, 299, 3]
  let intermediate_outputs ← entry_flow model_inputs
  let intermediate_outputs ← middle_flow intermediate_outputs
  let model_outputs ← exit_flow intermediate_outputs
  pure ⟨model_inputs, model_outputs, "Xception"⟩

/-- The empty build state in which the module-level code runs. -/
def initState : BuildState := ⟨0, []⟩

/-- Is this node an element-wise `Add` (residual-merge) node? -/
def Node.isAdd (n : Node) : Bool :=
  match n.kind with
  | .add => true
  | _ => false

/-- Is this node a standard `Conv2D` application? -/
def Node.isConv2D (n : Node) : Bool :=
  match n.kind with
  | .conv2D .. => true
  | _ => false

/-- Is this node a `SeparableConv2D` application? -/
def Node.isSeparableConv2D (n : Node) : Bool :=
  match n.kind with
  | .separableConv2D .. => true
  | _ => false

/-- Is this node a `BatchNormalization` application? -/
def Node.isBatchNorm (n : Node) : Bool :=
  match n.kind with
  | .batchNormalization => true
  | _ => false

/-- Number of `Add` nodes in a node list. -/
def countAdd (l : List Node) : Nat := (l.filter Node.isAdd).length

/-- Number of `Conv2D` nodes in a node list. -/
def countConv2D (l : List Node) : Nat := (l.filter Node.isConv2D).length

/-- Number of `SeparableConv2D` nodes in a node list. -/
def countSeparableConv2D (l : List Node) : Nat :=
  (l.filter Node.isSeparableConv2D).length

/-- Number of `BatchNormalization` nodes in a node list. -/
def countBatchNorm (l : List Node) : Nat := (l.filter Node.isBatchNorm).length

/-- The structure of a built graph: the sequence of layer kinds (with
all their parameters) and output shapes, in construction order —
everything except the per-build tensor ids. -/
def graphStructure (s : BuildState) : List (LayerKind × Shape) :=
  s.nodes.map (fun n => (n.kind, n.out_shape))

/-- Stride 1 under "same" padding preserves a spatial dimension. -/
theorem sameOut_one (d : Nat) : sameOut d 1 = d := by
  simp [sameOut]

/-- Stride 2 under "same" padding halves a spatial dimension, rounding
up. -/
theorem sameOut_two (d : Nat) : sameOut d 2 = (d + 1) / 2 := by
  have h : d + 2 - 1 = d + 1 := by omega
  simp [sameOut, h]

set_option maxHeartbeats 3200000 in
/-- Complete run of `entry_flow` on an arbitrary tensor of shape
`[h, w, c]` from an arbitrary build state: the exact 36 nodes it
constructs, their wiring, and the output tensor. -/
theorem entry_flow_run (a i h w c : Nat) (ns : List Node) :
    entry_flow ⟨a, [h, w, c]⟩ ⟨i, ns⟩ =
      (.ok ⟨i + 35, [((((h+1)/2+1)/2+1)/2+1)/2, ((((w+1)/2+1)/2+1)/2+1)/2, 728]⟩,
       ⟨i + 36, ns ++
        [⟨.conv2D 32 (3, 3) (2, 2) ("same") false, [a], i, [(h+1)/2, (w+1)/2, 32]⟩,
         ⟨.batchNormalization, [i], i + 1, [(h+1)/2, (w+1)/2, 32]⟩,
         ⟨.activation ("relu"), [i + 1], i + 2, [(h+1)/2, (w+1)/2, 32]⟩,
         ⟨.conv2D 64 (3, 3) (1, 1) ("same") false, [i + 2], i + 3, [(h+1)/2, (w+1)/2, 64]⟩,
         ⟨.batchNormalization, [i + 3], i + 4, [(h+1)/2, (w+1)/2, 64]⟩,
         ⟨.activation ("relu"), [i + 4], i + 5, [(h+1)/2, (w+1)/2, 64]⟩,
         ⟨.conv2D 128 (1, 1) (2, 2) ("same") false, [i + 5], i + 6,
          [((h+1)/2+1)/2, ((w+1)/2+1)/2, 128]⟩,
         ⟨.batchNormalization, [i + 6], i + 7, [((h+1)/2+1)/2, ((w+1)/2+1)/2, 128]⟩,
         ⟨.activation ("relu"), [i + 5], i + 8, [(h+1)/2, (w+1)/2, 64]⟩,
         ⟨.separableConv2D 128 (3, 3) (1, 1) ("same") false, [i + 8], i + 9,
          [(h+1)/2, (w+1)/2, 128]⟩,
         ⟨.batchNormalization, [i + 9], i + 10, [(h+1)/2, (w+1)/2, 128]⟩,
         ⟨.activation ("relu"), [i + 10], i + 11, [(h+1)/2, (w+1)/2, 128]⟩,
         ⟨.separableConv2D 128 (3, 3) (1, 1) ("same") false, [i + 11], i + 12,
          [(h+1)/2, (w+1)/2, 128]⟩,
         ⟨.batchNormalization, [i + 12], i + 13, [(h+1)/2, (w+1)/2, 128]⟩,
         ⟨.maxPool2D (3, 3) (2, 2) ("same"), [i + 13], i + 14,
          [((h+1)/2+1)/2, ((w+1)/2+1)/2, 128]⟩,
         ⟨.add, [i + 7, i + 14], i + 15, [((h+1)/2+1)/2, ((w+1)/2+1)/2, 128]⟩,
         ⟨.conv2D 256 (1, 1) (2, 2) ("same") false, [i + 15], i + 16,
          [(((h+1)/2+1)/2+1)/2, (((w+1)/2+1)/2+1)/2, 256]⟩,
         ⟨.batchNormalization, [i + 16], i + 17,
          [(((h+1)/2+1)/2+1)/2, (((w+1)/2+1)/2+1)/2, 256]⟩,
         ⟨.activation ("relu"), [i + 15], i + 18, [((h+1)/2+1)/2, ((w+1)/2+1)/2, 128]⟩,
         ⟨.separableConv2D 256 (3, 3) (1, 1) ("same") false, [i + 18], i + 19,
          [((h+1)/2+1)/2, ((w+1)/2+1)/2, 256]⟩,
         ⟨.batchNormalization, [i + 19], i + 20, [((h+1)/2+1)/2, ((w+1)/2+1)/2, 256]⟩,
         ⟨.activation ("relu"), [i + 20], i + 21, [((h+1)/2+1)/2, ((w+1)/2+1)/2, 256]⟩,
         ⟨.separableConv2D 256 (3, 3) (1, 1) ("same") false, [i + 21], i + 22,
          [((h+1)/2+1)/2, ((w+1)/2+1)/2, 256]⟩,
         ⟨.batchNormalization, [i + 22], i + 23, [((h+1)/2+1)/2, ((w+1)/2+1)/2, 256]⟩,
         ⟨.maxPool2D (3, 3) (2, 2) ("same"), [i + 23], i + 24,
          [(((h+1)/2+1)/2+1)/2, (((w+1)/2+1)/2+1)/2, 256]⟩,
         ⟨.add, [i + 17, i + 24], i + 25,
          [(((h+1)/2+1)/2+1)/2, (((w+1)/2+1)/2+1)/2, 256]⟩,
         ⟨.conv2D 728 (1, 1) (2, 2) ("same") false, [i + 25], i + 26,
          [((((h+1)/2+1)/2+1)/2+1)/2, ((((w+1)/2+1)/2+1)/2+1)/2, 728]⟩,
         ⟨.batchNormalization, [i + 26], i + 27,
          [((((h+1)/2+1)/2+1)/2+1)/2, ((((w+1)/2+1)/2+1)/2+1)/2, 728]⟩,
         ⟨.activation ("relu"), [i + 25], i + 28,
          [(((h+1)/2+1)/2+1)/2, (((w+1)/2+1)/2+1)/2, 256]⟩,
         ⟨.separableConv2D 728 (3, 3) (1, 1) ("same") false, [i + 28], i + 29,
          [(((h+1)/2+1)/2+1)/2, (((w+1)/2+1)/2+1)/2, 728]⟩,
         ⟨.batchNormalization, [i + 29], i + 30,
          [(((h+1)/2+1)/2+1)/2, (((w+1)/2+1)/2+1)/2, 728]⟩,
         ⟨.activation ("relu"), [i + 30], i + 31,
          [(((h+1)/2+1)/2+1)/2, (((w+1)/2+1)/2+1)/2, 728]⟩,
         ⟨.separableConv2D 728 (3, 3) (1, 1) ("same") false, [i + 31], i + 32,
          [(((h+1)/2+1)/2+1)/2, (((w+1)/2+1)/2+1)/2, 728]⟩,
         ⟨.batchNormalization, [i + 32], i + 33,
          [(((h+1)/2+1)/2+1)/2, (((w+1)/2+1)/2+1)/2, 728]⟩,
         ⟨.maxPool2D (3, 3) (2, 2) ("same"), [i + 33], i + 34,
          [((((h+1)/2+1)/2+1)/2+1)/2, ((((w+1)/2+1)/2+1)/2+1)/2, 728]⟩,
         ⟨.add, [i + 27, i + 34], i + 35,
          [((((h+1)/2+1)/2+1)/2+1)/2, ((((w+1)/2+1)/2+1)/2+1)/2, 728]⟩]⟩) := by
  simp +arith [entry_flow, loopFilters, repeatM, separable_convolutional_unit,
    convolutional_unit, Conv2D, SeparableConv2D, Activation, BatchNormalization,
    MaxPool2D, AddLayer, applyLayer, failM, instMonadM, mBind, mPure,
    sameOut_one, sameOut_two]

set_option maxHeartbeats 3200000 in
/-- Complete run of `middle_flow` on an arbitrary tensor of shape
`[h, w, 728]` from an arbitrary build state: eight identical residual
blocks of three pre-activated separable units each, all shapes
`[h, w, 728]`, each block's add consuming the unmodified block input. -/
theorem middle_flow_run (a i h w : Nat) (ns : List Node) :
    middle_flow ⟨a, [h, w, 728]⟩ ⟨i, ns⟩ =
      (.ok ⟨i + 79, [h, w, 728]⟩,
       ⟨i + 80, ns ++
        ([⟨.activation ("relu"), [a], i, [h, w, 728]⟩,
          ⟨.separableConv2D 728 (3, 3) (1, 1) ("same") false, [i], i + 1, [h, w, 728]⟩,
          ⟨.batchNormalization, [i + 1], i + 2, [h, w, 728]⟩,
          ⟨.activation ("relu"), [i + 2], i + 3, [h, w, 728]⟩,
          ⟨.separableConv2D 728 (3, 3) (1, 1) ("same") false, [i + 3], i + 4, [h, w, 728]⟩,
          ⟨.batchNormalization, [i + 4], i + 5, [h, w, 728]⟩,
          ⟨.activation ("relu"), [i + 5], i + 6, [h, w, 728]⟩,
          ⟨.separableConv2D 728 (3, 3) (1, 1) ("same") false, [i + 6], i + 7, [h, w, 728]⟩,
          ⟨.batchNormalization, [i + 7], i + 8, [h, w, 728]⟩,
          ⟨.add, [a, i + 8], i + 9, [h, w, 728]⟩] ++
         ((List.range 7).map (fun b =>
          [⟨.activation ("relu"), [i + 10*b + 9], i + 10*b + 10, [h, w, 728]⟩,
           ⟨.separableConv2D 728 (3, 3) (1, 1) ("same") false, [i + 10*b + 10],
            i + 10*b + 11, [h, w, 728]⟩,
           ⟨.batchNormalization, [i + 10*b + 11], i + 10*b + 12, [h, w, 728]⟩,
           ⟨.activation ("relu"), [i + 10*b + 12], i + 10*b + 13, [h, w, 728]⟩,
           ⟨.separableConv2D 728 (3, 3) (1, 1) ("same") false, [i + 10*b + 13],
            i + 10*b + 14, [h, w, 728]⟩,
           ⟨.batchNormalization, [i + 10*b + 14], i + 10*b + 15, [h, w, 728]⟩,
           ⟨.activation ("relu"), [i + 10*b + 15], i + 10*b + 16, [h, w, 728]⟩,
           ⟨.separableConv2D 728 (3, 3) (1, 1) ("same") false, [i + 10*b + 16],
            i + 10*b + 17, [h, w, 728]⟩,
           ⟨.batchNormalization, [i + 10*b + 17], i + 10*b + 18, [h, w, 728]⟩,
           ⟨.add, [i + 10*b + 9, i + 10*b + 18], i + 10*b + 19, [h, w, 728]⟩])).flatten)⟩) := by
  simp +arith [middle_flow, repeatM, separable_convolutional_unit,
    convolutional_unit, Conv2D, SeparableConv2D, Activation, BatchNormalization,
    AddLayer, applyLayer, failM, instMonadM, mBind, mPure,
    sameOut_one, sameOut_two, List.range_succ]

set_option maxHeartbeats 3200000 in
/-- Complete run of `exit_flow` on an arbitrary tensor of shape
`[h, w, 728]` from an arbitrary build state: the exact 21 nodes it
constructs (residual projection to 1024 channels, two default
separable units plus max-pool on the main branch, one add, two
post-activated separable units to 1536 and 2048 channels, global
average pooling and the two dense layers with relu and softmax), and
the `[1000]`-shaped output. -/
theorem exit_flow_run (a i h w : Nat) (ns : List Node) :
    exit_flow ⟨a, [h, w, 728]⟩ ⟨i, ns⟩ =
      (.ok ⟨i + 20, [1000]⟩,
       ⟨i + 21, ns ++
        [⟨.conv2D 1024 (1, 1) (2, 2) ("same") false, [a], i, [(h+1)/2, (w+1)/2, 1024]⟩,
         ⟨.batchNormalization, [i], i + 1, [(h+1)/2, (w+1)/2, 1024]⟩,
         ⟨.activation ("relu"), [a], i + 2, [h, w, 728]⟩,
         ⟨.separableConv2D 728 (3, 3) (1, 1) ("same") false, [i + 2], i + 3, [h, w, 728]⟩,
         ⟨.batchNormalization, [i + 3], i + 4, [h, w, 728]⟩,
         ⟨.activation ("relu"), [i + 4], i + 5, [h, w, 728]⟩,
         ⟨.separableConv2D 1024 (3, 3) (1, 1) ("same") false, [i + 5], i + 6, [h, w, 1024]⟩,
         ⟨.batchNormalization, [i + 6], i + 7, [h, w, 1024]⟩,
         ⟨.maxPool2D (3, 3) (2, 2) ("same"), [i + 7], i + 8, [(h+1)/2, (w+1)/2, 1024]⟩,
         ⟨.add, [i + 1, i + 8], i + 9, [(h+1)/2, (w+1)/2, 1024]⟩,
         ⟨.separableConv2D 1536 (3, 3) (1, 1) ("same") false, [i + 9], i + 10,
          [(h+1)/2, (w+1)/2, 1536]⟩,
         ⟨.batchNormalization, [i + 10], i + 11, [(h+1)/2, (w+1)/2, 1536]⟩,
         ⟨.activation ("relu"), [i + 11], i + 12, [(h+1)/2, (w+1)/2, 1536]⟩,
         ⟨.separableConv2D 2048 (3, 3) (1, 1) ("same") false, [i + 12], i + 13,
          [(h+1)/2, (w+1)/2, 2048]⟩,
         ⟨.batchNormalization, [i + 13], i + 14, [(h+1)/2, (w+1)/2, 2048]⟩,
         ⟨.activation ("relu"), [i + 14], i + 15, [(h+1)/2, (w+1)/2, 2048]⟩,
         ⟨.globalAveragePooling2D, [i + 15], i + 16, [2048]⟩,
         ⟨.dense 2048, [i + 16], i + 17, [2048]⟩,
         ⟨.activation ("relu"), [i + 17], i + 18, [2048]⟩,
         ⟨.dense 1000, [i + 18], i + 19, [1000]⟩,
         ⟨.activation ("softmax"), [i + 19], i + 20, [1000]⟩]⟩) := by
  simp +arith [exit_flow, loopFilters, separable_convolutional_unit,
    convolutional_unit, Conv2D, SeparableConv2D, Activation, BatchNormalization,
    MaxPool2D, AddLayer, GlobalAveragePooling2D, Dense, applyLayer, failM,
    instMonadM, mBind, mPure, sameOut_one, sameOut_two]


/-- `mBind` applied to a computation known to succeed. -/
theorem mBind_ok {α β : Type} {m : M α} {f : α → M β} {s s₂ : BuildState} {a : α}
    (h : m s = (.ok a, s₂)) : mBind m f s = f a s₂ := by
  unfold mBind
  rw [h]

/-- `build_model` is definitionally the sequential composition of the
input declaration and the three flows. -/
theorem build_model_unfold (s : BuildState) :
    build_model s = mBind (Input [299, 299, 3])
      (fun a => mBind (entry_flow a)
        (fun b => mBind (middle_flow b)
          (fun c => mBind (exit_flow c)
            (fun d => mPure ⟨a, d, "Xception"⟩)))) s := rfl

/-- Running `build_model`: if each stage succeeds from the state the
previous stage produced, the build returns the model packaging the
input and final tensors under the name "Xception", in the final
state. -/
theorem build_model_chain {s s0 s1 s2 s3 : BuildState} {t0 t1 t2 t3 : Tensor}
    (h0 : Input [299, 299, 3] s = (.ok t0, s0))
    (h1 : entry_flow t0 s0 = (.ok t1, s1))
    (h2 : middle_flow t1 s1 = (.ok t2, s2))
    (h3 : exit_flow t2 s2 = (.ok t3, s3)) :
    build_model s = (.ok ⟨t0, t3, "Xception"⟩, s3) :=
  calc build_model s
      = mBind (Input [299, 299, 3])
          (fun a => mBind (entry_flow a)
            (fun b => mBind (middle_flow b)
              (fun c => mBind (exit_flow c)
                (fun d => mPure ⟨a, d, "Xception"⟩)))) s := build_model_unfold s
    _ = mBind (entry_flow t0)
          (fun b => mBind (middle_flow b)
            (fun c => mBind (exit_flow c)
              (fun d => mPure ⟨t0, d, "Xception"⟩))) s0 := mBind_ok h0
    _ = mBind (middle_flow t1)
          (fun c => mBind (exit_flow c)
            (fun d => mPure ⟨t0, d, "Xception"⟩)) s1 := mBind_ok h1
    _ = mBind (exit_flow t2) (fun d => mPure ⟨t0, d, "Xception"⟩) s2 := mBind_ok h2
    _ = mPure ⟨t0, t3, "Xception"⟩ s3 := mBind_ok h3
    _ = (.ok ⟨t0, t3, "Xception"⟩, s3) := rfl

/-- C2: `separable_convolutional_unit` is exactly `convolutional_unit`
with kernel `(3, 3)`, strides `(1, 1)` and the separable variant, for
every choice of the activation flags; with the flags omitted it uses
`pre_activation=True, post_activation=False`, while `convolutional_unit`
with its arguments omitted uses strides `(1, 1)`,
`pre_activation=False, post_activation=True` and the standard variant —
the inverse activation defaults. -/
theorem separable_convolutional_unit_spec :
    (∀ (x : Tensor) (n : Nat) (pre post : Bool),
      separable_convolutional_unit x n pre post =
        convolutional_unit x n (3, 3) (1, 1) pre post ("SeparableConv2D")) ∧
    (∀ (x : Tensor) (n : Nat),
      separable_convolutional_unit x n =
        convolutional_unit x n (3, 3) (1, 1) true false ("SeparableConv2D")) ∧
    (∀ (x : Tensor) (n : Nat) (k : Nat × Nat),
      convolutional_unit x n k =
        convolutional_unit x n k (1, 1) false true ("Conv2D")) :=
  ⟨fun _ _ _ _ => rfl, fun _ _ => rfl, fun _ _ _ => rfl⟩

/-- C7: calling `convolutional_unit` with a `conv_layer` outside
`{Conv2D, SeparableConv2D}` fails with the `ValueError` naming the
offending parameter value, and leaves the build state untouched (no
graph node of the unit is constructed); for either supported variant
the check passes and the unit is built. -/
theorem convolutional_unit_variant_check :
    (∀ (v : String) (x : Tensor) (f : Nat) (ks ss : Nat × Nat)
      (pre post : Bool) (s : BuildState),
      v ∉ (["Conv2D", "SeparableConv2D"] : List String) →
      convolutional_unit x f ks ss pre post v s =
        (.error ("conv_layer must be either Conv2D or SeparableConv2D. Found " ++ v), s)) ∧
    (∀ (h w c f : Nat) (ks ss : Nat × Nat) (pre post : Bool) (i : Nat),
      ∀ v ∈ (["Conv2D", "SeparableConv2D"] : List String),
      ∃ t st, convolutional_unit ⟨0, [h, w, c]⟩ f ks ss pre post v ⟨i, []⟩ = (.ok t, st)) := by
  constructor
  · intro v x f ks ss pre post s hv
    unfold convolutional_unit
    rw [if_pos hv]
    rfl
  · intro h w c f ks ss pre post i v hv
    rcases List.mem_pair.mp hv with rfl | rfl <;> cases pre <;> cases post <;>
      exact ⟨_, _, rfl⟩

/-- Witness for C7 at concrete inputs: the unsupported variant
"BadLayer" is rejected with the exact message and an unchanged state,
and the supported variant "Conv2D" succeeds. -/
theorem convolutional_unit_variant_check_witness :
    (convolutional_unit ⟨0, [5, 5, 3]⟩ 4 (3, 3) (1, 1) false true ("BadLayer") ⟨1, []⟩ =
      (.error ("conv_layer must be either Conv2D or SeparableConv2D. Found " ++ "BadLayer"),
       ⟨1, []⟩)) ∧
    (∃ t st, convolutional_unit ⟨0, [5, 5, 3]⟩ 4 (3, 3) (1, 1) false true ("Conv2D") ⟨1, []⟩ =
      (.ok t, st)) :=
  ⟨convolutional_unit_variant_check.1 "BadLayer" ⟨0, [5, 5, 3]⟩ 4 (3, 3) (1, 1)
      false true ⟨1, []⟩ (by decide),
   convolutional_unit_variant_check.2 5 5 3 4 (3, 3) (1, 1) false true 1 "Conv2D" (by decide)⟩

/-- C8 counterexample: `convolutional_unit` with a non-positive filter
count (0) and all-zero kernel and stride tuples does NOT fail — with
the standard variant it constructs the unit (conv, batch norm,
activation) and returns successfully, so no `InvalidConfiguration`
error is raised by this code for bad numeric parameters. -/
theorem convolutional_unit_accepts_bad_params_cex :
    (convolutional_unit ⟨0, [5, 5, 3]⟩ 0 (0, 0) (0, 0) false true ("Conv2D") ⟨1, []⟩ =
      (.ok ⟨3, [0, 0, 0]⟩,
       ⟨4, [⟨.conv2D 0 (0, 0) (0, 0) ("same") false, [0], 1, [0, 0, 0]⟩,
            ⟨.batchNormalization, [1], 2, [0, 0, 0]⟩,
            ⟨.activation ("relu"), [2], 3, [0, 0, 0]⟩]⟩)) ∧
    (∀ e : String,
      (convolutional_unit ⟨0, [5, 5, 3]⟩ 0 (0, 0) (0, 0) false true ("Conv2D") ⟨1, []⟩).1 ≠
        Except.error e) :=
  ⟨rfl, fun _ h => nomatch h⟩

/-- C8 amended: `convolutional_unit` itself validates only the
`conv_layer` variant; filter counts and kernel/stride tuples are
forwarded unchecked, so for either supported variant the call succeeds
on a rank-4 input whatever those numeric parameters are (including
non-positive ones). -/
theorem convolutional_unit_no_param_validation
    (h w c f : Nat) (ks ss : Nat × Nat) (pre post : Bool) (i : Nat) :
    (∃ t st, convolutional_unit ⟨0, [h, w, c]⟩ f ks ss pre post ("Conv2D") ⟨i, []⟩ =
      (.ok t, st)) ∧
    (∃ t st, convolutional_unit ⟨0, [h, w, c]⟩ f ks ss pre post ("SeparableConv2D") ⟨i, []⟩ =
      (.ok t, st)) := by
  cases pre <;> cases post <;> exact ⟨⟨_, _, rfl⟩, ⟨_, _, rfl⟩⟩

/-- C10: graph construction is deterministic — invoking the assembler a
second time (the id counter having advanced past the 138 ids consumed
by the first build) produces a graph with exactly the same sequence of
layer kinds, parameters and output shapes; both invocations succeed
with models agreeing on name and input/output shapes, while the tensor
instances (the ids) are distinct. -/
theorem build_model_deterministic :
    graphStructure (build_model initState).2 = graphStructure (build_model ⟨138, []⟩).2 ∧
    (∃ m₁ m₂, (build_model initState).1 = .ok m₁ ∧ (build_model ⟨138, []⟩).1 = .ok m₂ ∧
      m₁.name = m₂.name ∧ m₁.inputs.shape = m₂.inputs.shape ∧
      m₁.outputs.shape = m₂.outputs.shape ∧ m₁.inputs.tid ≠ m₂.inputs.tid) := by
  have hb1 := build_model_chain
    (show Input [299, 299, 3] initState =
      (.ok ⟨0, [299, 299, 3]⟩,
       ⟨1, [⟨.inputLayer [299, 299, 3], [], 0, [299, 299, 3]⟩]⟩) from rfl)
    (entry_flow_run 0 1 299 299 3 _) (middle_flow_run _ _ _ _ _)
    (exit_flow_run _ _ _ _ _)
  have hb2 := build_model_chain
    (show Input [299, 299, 3] ⟨138, []⟩ =
      (.ok ⟨138, [299, 299, 3]⟩,
       ⟨139, [⟨.inputLayer [299, 299, 3], [], 138, [299, 299, 3]⟩]⟩) from rfl)
    (entry_flow_run 138 139 299 299 3 _) (middle_flow_run _ _ _ _ _)
    (exit_flow_run _ _ _ _ _)
  rw [hb1, hb2]
  exact ⟨by decide, _, _, rfl, rfl, rfl, rfl, rfl, by decide⟩

set_option maxHeartbeats 1600000 in
/-- C1: for every input tensor and both supported variants,
`convolutional_unit` builds exactly: a relu activation iff
`pre_activation`; then the chosen convolution with the given filters,
kernel size and strides, "same" padding and no bias; then exactly one
batch normalization regardless of the activation flags; then a relu
activation of the normalized result iff `post_activation`. -/
theorem convolutional_unit_pipeline (pre post : Bool) (a i h w c f : Nat)
    (ks ss : Nat × Nat) (ns : List Node) :
    (convolutional_unit ⟨a, [h, w, c]⟩ f ks ss pre post ("Conv2D") ⟨i, ns⟩ =
      (.ok ⟨(if pre then i + 1 else i) + (if post then 2 else 1),
            [sameOut h ss.1, sameOut w ss.2, f]⟩,
       ⟨(if pre then i + 1 else i) + (if post then 2 else 1) + 1,
        ns ++
        ((if pre then [⟨.activation ("relu"), [a], i, [h, w, c]⟩] else []) ++
         [⟨.conv2D f ks ss ("same") false, [if pre then i else a],
           (if pre then i + 1 else i), [sameOut h ss.1, sameOut w ss.2, f]⟩,
          ⟨.batchNormalization, [if pre then i + 1 else i],
           (if pre then i + 1 else i) + 1, [sameOut h ss.1, sameOut w ss.2, f]⟩] ++
         (if post then
           [⟨.activation ("relu"), [(if pre then i + 1 else i) + 1],
             (if pre then i + 1 else i) + 2, [sameOut h ss.1, sameOut w ss.2, f]⟩]
          else []))⟩)) ∧
    (convolutional_unit ⟨a, [h, w, c]⟩ f ks ss pre post ("SeparableConv2D") ⟨i, ns⟩ =
      (.ok ⟨(if pre then i + 1 else i) + (if post then 2 else 1),
            [sameOut h ss.1, sameOut w ss.2, f]⟩,
       ⟨(if pre then i + 1 else i) + (if post then 2 else 1) + 1,
        ns ++
        ((if pre then [⟨.activation ("relu"), [a], i, [h, w, c]⟩] else []) ++
         [⟨.separableConv2D f ks ss ("same") false, [if pre then i else a],
           (if pre then i + 1 else i), [sameOut h ss.1, sameOut w ss.2, f]⟩,
          ⟨.batchNormalization, [if pre then i + 1 else i],
           (if pre then i + 1 else i) + 1, [sameOut h ss.1, sameOut w ss.2, f]⟩] ++
         (if post then
           [⟨.activation ("relu"), [(if pre then i + 1 else i) + 1],
             (if pre then i + 1 else i) + 2, [sameOut h ss.1, sameOut w ss.2, f]⟩]
          else []))⟩)) ∧
    countBatchNorm
      (convolutional_unit ⟨a, [h, w, c]⟩ f ks ss pre post ("Conv2D") ⟨i, ns⟩).2.nodes =
      countBatchNorm ns + 1 ∧
    countBatchNorm
      (convolutional_unit ⟨a, [h, w, c]⟩ f ks ss pre post ("SeparableConv2D") ⟨i, ns⟩).2.nodes =
      countBatchNorm ns + 1 := by
  cases pre <;> cases post <;>
    simp +arith [convolutional_unit, Conv2D, SeparableConv2D, Activation,
      BatchNormalization, applyLayer, failM, instMonadM, mBind, mPure,
      countBatchNorm, Node.isBatchNorm, List.filter_append]

set_option maxHeartbeats 1600000 in
/-- C3: on any `[h, w, c]` input, `entry_flow` builds exactly the two
stem conv units (32 then 64 filters, both post-activated) followed by
three residual blocks for filters 128, 256, 728 in that order — each a
non-activated 1x1 stride-2 projection, two default separable units,
a 3x3 stride-2 "same" max-pool, and one add of projection and pooled
branch — so it constructs exactly 3 add nodes, 5 standard convolutions
and 6 separable convolutions. -/
theorem entry_flow_spec (a i h w c : Nat) (ns : List Node) :
    entry_flow ⟨a, [h, w, c]⟩ ⟨i, ns⟩ =
      (.ok ⟨i + 35, [((((h+1)/2+1)/2+1)/2+1)/2, ((((w+1)/2+1)/2+1)/2+1)/2, 728]⟩,
       ⟨i + 36, ns ++
        [⟨.conv2D 32 (3, 3) (2, 2) ("same") false, [a], i, [(h+1)/2, (w+1)/2, 32]⟩,
         ⟨.batchNormalization, [i], i + 1, [(h+1)/2, (w+1)/2, 32]⟩,
         ⟨.activation ("relu"), [i + 1], i + 2, [(h+1)/2, (w+1)/2, 32]⟩,
         ⟨.conv2D 64 (3, 3) (1, 1) ("same") false, [i + 2], i + 3, [(h+1)/2, (w+1)/2, 64]⟩,
         ⟨.batchNormalization, [i + 3], i + 4, [(h+1)/2, (w+1)/2, 64]⟩,
         ⟨.activation ("relu"), [i + 4], i + 5, [(h+1)/2, (w+1)/2, 64]⟩,
         ⟨.conv2D 128 (1, 1) (2, 2) ("same") false, [i + 5], i + 6,
          [((h+1)/2+1)/2, ((w+1)/2+1)/2, 128]⟩,
         ⟨.batchNormalization, [i + 6], i + 7, [((h+1)/2+1)/2, ((w+1)/2+1)/2, 128]⟩,
         ⟨.activation ("relu"), [i + 5], i + 8, [(h+1)/2, (w+1)/2, 64]⟩,
         ⟨.separableConv2D 128 (3, 3) (1, 1) ("same") false, [i + 8], i + 9,
          [(h+1)/2, (w+1)/2, 128]⟩,
         ⟨.batchNormalization, [i + 9], i + 10, [(h+1)/2, (w+1)/2, 128]⟩,
         ⟨.activation ("relu"), [i + 10], i + 11, [(h+1)/2, (w+1)/2, 128]⟩,
         ⟨.separableConv2D 128 (3, 3) (1, 1) ("same") false, [i + 11], i + 12,
          [(h+1)/2, (w+1)/2, 128]⟩,
         ⟨.batchNormalization, [i + 12], i + 13, [(h+1)/2, (w+1)/2, 128]⟩,
         ⟨.maxPool2D (3, 3) (2, 2) ("same"), [i + 13], i + 14,
          [((h+1)/2+1)/2, ((w+1)/2+1)/2, 128]⟩,
         ⟨.add, [i + 7, i + 14], i + 15, [((h+1)/2+1)/2, ((w+1)/2+1)/2, 128]⟩,
         ⟨.conv2D 256 (1, 1) (2, 2) ("same") false, [i + 15], i + 16,
          [(((h+1)/2+1)/2+1)/2, (((w+1)/2+1)/2+1)/2, 256]⟩,
         ⟨.batchNormalization, [i + 16], i + 17,
          [(((h+1)/2+1)/2+1)/2, (((w+1)/2+1)/2+1)/2, 256]⟩,
         ⟨.activation ("relu"), [i + 15], i + 18, [((h+1)/2+1)/2, ((w+1)/2+1)/2, 128]⟩,
         ⟨.separableConv2D 256 (3, 3) (1, 1) ("same") false, [i + 18], i + 19,
          [((h+1)/2+1)/2, ((w+1)/2+1)/2, 256]⟩,
         ⟨.batchNormalization, [i + 19], i + 20, [((h+1)/2+1)/2, ((w+1)/2+1)/2, 256]⟩,
         ⟨.activation ("relu"), [i + 20], i + 21, [((h+1)/2+1)/2, ((w+1)/2+1)/2, 256]⟩,
         ⟨.separableConv2D 256 (3, 3) (1, 1) ("same") false, [i + 21], i + 22,
          [((h+1)/2+1)/2, ((w+1)/2+1)/2, 256]⟩,
         ⟨.batchNormalization, [i + 22], i + 23, [((h+1)/2+1)/2, ((w+1)/2+1)/2, 256]⟩,
         ⟨.maxPool2D (3, 3) (2, 2) ("same"), [i + 23], i + 24,
          [(((h+1)/2+1)/2+1)/2, (((w+1)/2+1)/2+1)/2, 256]⟩,
         ⟨.add, [i + 17, i + 24], i + 25,
          [(((h+1)/2+1)/2+1)/2, (((w+1)/2+1)/2+1)/2, 256]⟩,
         ⟨.conv2D 728 (1, 1) (2, 2) ("same") false, [i + 25], i + 26,
          [((((h+1)/2+1)/2+1)/2+1)/2, ((((w+1)/2+1)/2+1)/2+1)/2, 728]⟩,
         ⟨.batchNormalization, [i + 26], i + 27,
          [((((h+1)/2+1)/2+1)/2+1)/2, ((((w+1)/2+1)/2+1)/2+1)/2, 728]⟩,
         ⟨.activation ("relu"), [i + 25], i + 28,
          [(((h+1)/2+1)/2+1)/2, (((w+1)/2+1)/2+1)/2, 256]⟩,
         ⟨.separableConv2D 728 (3, 3) (1, 1) ("same") false, [i + 28], i + 29,
          [(((h+1)/2+1)/2+1)/2, (((w+1)/2+1)/2+1)/2, 728]⟩,
         ⟨.batchNormalization, [i + 29], i + 30,
          [(((h+1)/2+1)/2+1)/2, (((w+1)/2+1)/2+1)/2, 728]⟩,
         ⟨.activation ("relu"), [i + 30], i + 31,
          [(((h+1)/2+1)/2+1)/2, (((w+1)/2+1)/2+1)/2, 728]⟩,
         ⟨.separableConv2D 728 (3, 3) (1, 1) ("same") false, [i + 31], i + 32,
          [(((h+1)/2+1)/2+1)/2, (((w+1)/2+1)/2+1)/2, 728]⟩,
         ⟨.batchNormalization, [i + 32], i + 33,
          [(((h+1)/2+1)/2+1)/2, (((w+1)/2+1)/2+1)/2, 728]⟩,
         ⟨.maxPool2D (3, 3) (2, 2) ("same"), [i + 33], i + 34,
          [((((h+1)/2+1)/2+1)/2+1)/2, ((((w+1)/2+1)/2+1)/2+1)/2, 728]⟩,
         ⟨.add, [i + 27, i + 34], i + 35,
          [((((h+1)/2+1)/2+1)/2+1)/2, ((((w+1)/2+1)/2+1)/2+1)/2, 728]⟩]⟩) ∧
    countAdd (entry_flow ⟨a, [h, w, c]⟩ ⟨i, ns⟩).2.nodes = countAdd ns + 3 ∧
    countConv2D (entry_flow ⟨a, [h, w, c]⟩ ⟨i, ns⟩).2.nodes = countConv2D ns + 5 ∧
    countSeparableConv2D (entry_flow ⟨a, [h, w, c]⟩ ⟨i, ns⟩).2.nodes =
      countSeparableConv2D ns + 6 := by
  refine ⟨entry_flow_run a i h w c ns, ?_, ?_, ?_⟩ <;>
    rw [entry_flow_run] <;>
    simp +arith [countAdd, countConv2D, countSeparableConv2D, Node.isAdd,
      Node.isConv2D, Node.isSeparableConv2D, List.filter_append]

set_option maxHeartbeats 1600000 in
/-- C4: on any `[h, w, 728]` input, `middle_flow` is shape preserving
(output shape equals input shape), builds exactly 8 residual-add nodes
and 24 separable-conv applications (3 per block times 8 blocks), every
separable conv with 728 filters, 3x3 kernel, stride 1 (pre-activated,
not post-activated, as the explicit node list shows), and each block's
add consumes the unmodified block input as its first operand. -/
theorem middle_flow_spec (a i h w : Nat) (ns : List Node) :
    middle_flow ⟨a, [h, w, 728]⟩ ⟨i, ns⟩ =
      (.ok ⟨i + 79, [h, w, 728]⟩,
       ⟨i + 80, ns ++
        ([⟨.activation ("relu"), [a], i, [h, w, 728]⟩,
          ⟨.separableConv2D 728 (3, 3) (1, 1) ("same") false, [i], i + 1, [h, w, 728]⟩,
          ⟨.batchNormalization, [i + 1], i + 2, [h, w, 728]⟩,
          ⟨.activation ("relu"), [i + 2], i + 3, [h, w, 728]⟩,
          ⟨.separableConv2D 728 (3, 3) (1, 1) ("same") false, [i + 3], i + 4, [h, w, 728]⟩,
          ⟨.batchNormalization, [i + 4], i + 5, [h, w, 728]⟩,
          ⟨.activation ("relu"), [i + 5], i + 6, [h, w, 728]⟩,
          ⟨.separableConv2D 728 (3, 3) (1, 1) ("same") false, [i + 6], i + 7, [h, w, 728]⟩,
          ⟨.batchNormalization, [i + 7], i + 8, [h, w, 728]⟩,
          ⟨.add, [a, i + 8], i + 9, [h, w, 728]⟩] ++
         ((List.range 7).map (fun b =>
          [⟨.activation ("relu"), [i + 10*b + 9], i + 10*b + 10, [h, w, 728]⟩,
           ⟨.separableConv2D 728 (3, 3) (1, 1) ("same") false, [i + 10*b + 10],
            i + 10*b + 11, [h, w, 728]⟩,
           ⟨.batchNormalization, [i + 10*b + 11], i + 10*b + 12, [h, w, 728]⟩,
           ⟨.activation ("relu"), [i + 10*b + 12], i + 10*b + 13, [h, w, 728]⟩,
           ⟨.separableConv2D 728 (3, 3) (1, 1) ("same") false, [i + 10*b + 13],
            i + 10*b + 14, [h, w, 728]⟩,
           ⟨.batchNormalization, [i + 10*b + 14], i + 10*b + 15, [h, w, 728]⟩,
           ⟨.activation ("relu"), [i + 10*b + 15], i + 10*b + 16, [h, w, 728]⟩,
           ⟨.separableConv2D 728 (3, 3) (1, 1) ("same") false, [i + 10*b + 16],
            i + 10*b + 17, [h, w, 728]⟩,
           ⟨.batchNormalization, [i + 10*b + 17], i + 10*b + 18, [h, w, 728]⟩,
           ⟨.add, [i + 10*b + 9, i + 10*b + 18], i + 10*b + 19, [h, w, 728]⟩])).flatten)⟩) ∧
    countAdd (middle_flow ⟨a, [h, w, 728]⟩ ⟨i, ns⟩).2.nodes = countAdd ns + 8 ∧
    countSeparableConv2D (middle_flow ⟨a, [h, w, 728]⟩ ⟨i, ns⟩).2.nodes =
      countSeparableConv2D ns + 24 ∧
    ((middle_flow ⟨a, [h, w, 728]⟩ ⟨i, ns⟩).2.nodes.filter Node.isSeparableConv2D).map
      Node.kind =
      (ns.filter Node.isSeparableConv2D).map Node.kind ++
      List.replicate 24 (.separableConv2D 728 (3, 3) (1, 1) ("same") false) := by
  refine ⟨middle_flow_run a i h w ns, ?_, ?_, ?_⟩ <;>
    rw [middle_flow_run] <;>
    simp +arith [countAdd, countSeparableConv2D, Node.isAdd, Node.isSeparableConv2D,
      Node.kind, List.filter_append, List.range_succ, List.replicate]

set_option maxHeartbeats 1600000 in
/-- C5: on any `[h, w, 728]` input, `exit_flow` builds exactly: a
non-activated 1x1 stride-2 projection to 1024 channels; separable
units of 728 then 1024 filters (default flags) and a 3x3 stride-2
"same" max-pool on the main branch; one add of the two branches;
separable units of 1536 then 2048 filters with the overridden flags
(no pre-activation, post-activation after the batch norm); global
average pooling; Dense(2048) with relu; Dense(1000) with softmax,
yielding a `[1000]`-shaped output. -/
theorem exit_flow_spec (a i h w : Nat) (ns : List Node) :
    exit_flow ⟨a, [h, w, 728]⟩ ⟨i, ns⟩ =
      (.ok ⟨i + 20, [1000]⟩,
       ⟨i + 21, ns ++
        [⟨.conv2D 1024 (1, 1) (2, 2) ("same") false, [a], i, [(h+1)/2, (w+1)/2, 1024]⟩,
         ⟨.batchNormalization, [i], i + 1, [(h+1)/2, (w+1)/2, 1024]⟩,
         ⟨.activation ("relu"), [a], i + 2, [h, w, 728]⟩,
         ⟨.separableConv2D 728 (3, 3) (1, 1) ("same") false, [i + 2], i + 3, [h, w, 728]⟩,
         ⟨.batchNormalization, [i + 3], i + 4, [h, w, 728]⟩,
         ⟨.activation ("relu"), [i + 4], i + 5, [h, w, 728]⟩,
         ⟨.separableConv2D 1024 (3, 3) (1, 1) ("same") false, [i + 5], i + 6, [h, w, 1024]⟩,
         ⟨.batchNormalization, [i + 6], i + 7, [h, w, 1024]⟩,
         ⟨.maxPool2D (3, 3) (2, 2) ("same"), [i + 7], i + 8, [(h+1)/2, (w+1)/2, 1024]⟩,
         ⟨.add, [i + 1, i + 8], i + 9, [(h+1)/2, (w+1)/2, 1024]⟩,
         ⟨.separableConv2D 1536 (3, 3) (1, 1) ("same") false, [i + 9], i + 10,
          [(h+1)/2, (w+1)/2, 1536]⟩,
         ⟨.batchNormalization, [i + 10], i + 11, [(h+1)/2, (w+1)/2, 1536]⟩,
         ⟨.activation ("relu"), [i + 11], i + 12, [(h+1)/2, (w+1)/2, 1536]⟩,
         ⟨.separableConv2D 2048 (3, 3) (1, 1) ("same") false, [i + 12], i + 13,
          [(h+1)/2, (w+1)/2, 2048]⟩,
         ⟨.batchNormalization, [i + 13], i + 14, [(h+1)/2, (w+1)/2, 2048]⟩,
         ⟨.activation ("relu"), [i + 14], i + 15, [(h+1)/2, (w+1)/2, 2048]⟩,
         ⟨.globalAveragePooling2D, [i + 15], i + 16, [2048]⟩,
         ⟨.dense 2048, [i + 16], i + 17, [2048]⟩,
         ⟨.activation ("relu"), [i + 17], i + 18, [2048]⟩,
         ⟨.dense 1000, [i + 18], i + 19, [1000]⟩,
         ⟨.activation ("softmax"), [i + 19], i + 20, [1000]⟩]⟩) ∧
    countAdd (exit_flow ⟨a, [h, w, 728]⟩ ⟨i, ns⟩).2.nodes = countAdd ns + 1 ∧
    countConv2D (exit_flow ⟨a, [h, w, 728]⟩ ⟨i, ns⟩).2.nodes = countConv2D ns + 1 ∧
    countSeparableConv2D (exit_flow ⟨a, [h, w, 728]⟩ ⟨i, ns⟩).2.nodes =
      countSeparableConv2D ns + 4 := by
  refine ⟨exit_flow_run a i h w ns, ?_, ?_, ?_⟩ <;>
    rw [exit_flow_run] <;>
    simp +arith [countAdd, countConv2D, countSeparableConv2D, Node.isAdd,
      Node.isConv2D, Node.isSeparableConv2D, List.filter_append]

/-- C6: the top-level build declares a `[299, 299, 3]` input
placeholder (unbound batch dimension omitted in this embedding),
threads it through `entry_flow`, `middle_flow`, `exit_flow` in exactly
that order with no transformation in between (each stage starts from
exactly the state the previous stage produced), and packages the
resulting input and output tensors into a model named "Xception". -/
theorem build_model_spec :
    ∃ (t0 : Tensor) (s0 : BuildState) (t1 : Tensor) (s1 : BuildState)
      (t2 : Tensor) (s2 : BuildState) (t3 : Tensor) (s3 : BuildState),
      Input [299, 299, 3] initState = (.ok t0, s0) ∧
      entry_flow t0 s0 = (.ok t1, s1) ∧
      middle_flow t1 s1 = (.ok t2, s2) ∧
      exit_flow t2 s2 = (.ok t3, s3) ∧
      build_model initState = (.ok ⟨t0, t3, "Xception"⟩, s3) ∧
      t0.tid = 0 ∧ t0.shape = [299, 299, 3] ∧ t3.shape = [1000] := by
  refine ⟨_, _, _, _, _, _, _, _, rfl, entry_flow_run 0 1 299 299 3 _,
    middle_flow_run _ _ _ _ _, exit_flow_run _ _ _ _ _,
    build_model_chain rfl (entry_flow_run 0 1 299 299 3 _)
      (middle_flow_run _ _ _ _ _) (exit_flow_run _ _ _ _ _), rfl, rfl, rfl⟩

/-- C9: in the fully assembled model the stage-cumulative layer counts
are exact — after the entry flow 3 adds, 5 standard convs, 6 separable
convs; after the middle flow 11 adds, 5 standard convs, 30 separable
convs; after the exit flow (the whole model) 12 adds, 6 standard convs
and 34 separable convs — i.e. 3+8+1 adds, (2+3)+1 standard convs and
6+24+4 separable convs. -/
theorem build_model_layer_counts :
    ∃ (t0 : Tensor) (s0 : BuildState) (t1 : Tensor) (s1 : BuildState)
      (t2 : Tensor) (s2 : BuildState) (t3 : Tensor) (s3 : BuildState),
      Input [299, 299, 3] initState = (.ok t0, s0) ∧
      entry_flow t0 s0 = (.ok t1, s1) ∧
      middle_flow t1 s1 = (.ok t2, s2) ∧
      exit_flow t2 s2 = (.ok t3, s3) ∧
      build_model initState = (.ok ⟨t0, t3, "Xception"⟩, s3) ∧
      countAdd s1.nodes = 3 ∧ countConv2D s1.nodes = 5 ∧
      countSeparableConv2D s1.nodes = 6 ∧
      countAdd s2.nodes = 11 ∧ countConv2D s2.nodes = 5 ∧
      countSeparableConv2D s2.nodes = 30 ∧
      countAdd s3.nodes = 12 ∧ countConv2D s3.nodes = 6 ∧
      countSeparableConv2D s3.nodes = 34 := by
  refine ⟨_, _, _, _, _, _, _, _, rfl, entry_flow_run 0 1 299 299 3 _,
    middle_flow_run _ _ _ _ _, exit_flow_run _ _ _ _ _,
    build_model_chain rfl (entry_flow_run 0 1 299 299 3 _)
      (middle_flow_run _ _ _ _ _) (exit_flow_run _ _ _ _ _),
    ?_, ?_, ?_, ?_, ?_, ?_, ?_, ?_, ?_⟩ <;> decide

end Diagtomodel
